import Mathlib

/-!
Verification of the Scalr → ServiceNow webhook relay (`webhook.py`).

The program is a single Flask handler.  We shallowly embed its logic:

* a Python `dict` of string keys/values becomes an association list
  (`Data`), and `d[k]` becomes `dictGet d k : Option String` — `none`
  models the `KeyError` exception;
* fallible computations (any Python expression that can raise) return
  `Option`;
* the outbound ServiceNow REST calls become a trace of `StoreOp`
  values; the store's reply to the single lookup GET is a parameter
  (`storeResponse`), since the store is an external collaborator;
* library primitives that are not part of this repository
  (`hmac`/`hashlib` digests, `dateutil` date parsing) are parameters of
  `validate_request`: `hmacSha1Hex key msg` stands for
  `binascii.hexlify(hmac.new(key, msg, sha1).digest())` and
  `parseDate s` for `dateutil.parser.parse(s)` reduced to seconds
  (`none` models an unparseable date raising), with timestamps as `ℚ`.
-/

namespace Webhook

/-- A Python string-to-string dict, as an association list. -/
abbrev Data := List (String × String)

/-- `d[k]` on a Python dict: the value of the first pair whose key is `k`,
or `none` (modelling `KeyError`) when the key is absent. -/
def dictGet (d : Data) (k : String) : Option String :=
  (d.find? (fun p => p.1 == k)).map (fun p => p.2)

/-- One outbound REST call to the ServiceNow table API. -/
inductive StoreOp where
  /-- `client.get(... '?u_id={server_id}')` -/
  | lookup (server_id : String)
  /-- `client.post(..., json=payload)` -/
  | create (payload : List (String × String))
  /-- `client.patch(... '/{sys_id}', json=payload)` -/
  | update (sys_id : String) (payload : List (String × String))
deriving DecidableEq

/-- `status_from_event` (webhook.py lines 82–93): the event-name → status
dictionary with `.get(event, '')`. -/
def status_from_event (event : String) : String :=
  if event = "BeforeInstanceLaunch" then "provisioning"
  else if event = "HostInit" then "initializing"
  else if event = "BeforeHostUp" then "configuring"
  else if event = "HostUp" then "running"
  else if event = "BeforeHostTerminate" then "deprovisioning"
  else if event = "HostDown" then "terminated"
  else if event = "ResumeComplete" then "running"
  else if event = "HostInitFailed" then "failed"
  else if event = "ServiceNowEvent" then "running"
  else ""

/-- The nine keys of the `status_from_event` dictionary. -/
def table_events : List String :=
  ["BeforeInstanceLaunch", "HostInit", "BeforeHostUp", "HostUp",
   "BeforeHostTerminate", "HostDown", "ResumeComplete", "HostInitFailed",
   "ServiceNowEvent"]

/-- Lines 67–72 of `update_server`: `status = status_from_event(event)`
followed by the `HostDown` suspend override, which reads
`data['SCALR_IS_SUSPEND']` (a `KeyError`, i.e. `none`, when absent). -/
def effective_status (data : Data) (event : String) : Option String :=
  let status := status_from_event event
  if event = "HostDown" then
    match dictGet data "SCALR_IS_SUSPEND" with
    | none => none
    | some suspended => some (if suspended = "1" then "suspended" else status)
  else some status

/-- `server_object` (lines 96–110): the dict literal projecting the
notification payload into ServiceNow field names.  Python evaluates the
values in source order and raises on the first missing key; which key
raised is unobservable here, so a single wildcard `none` branch is
faithful.  `farm_sys_id` is accepted and ignored, as in the source. -/
def server_object (data : Data) (farm_sys_id : String) :
    Option (List (String × String)) :=
  match dictGet data "SCALR_SERVER_ID", dictGet data "SCALR_ENV_ID",
        dictGet data "SCALR_ACCOUNT_ID", dictGet data "SCALR_CLOUD_PLATFORM",
        dictGet data "SCALR_CLOUD_LOCATION", dictGet data "SCALR_FARM_ROLE_ALIAS",
        dictGet data "SCALR_FARM_ROLE_ID", dictGet data "SCALR_SERVER_HOSTNAME",
        dictGet data "SCALR_EXTERNAL_IP", dictGet data "SCALR_INTERNAL_IP",
        dictGet data "SCALR_SERVER_TYPE", dictGet data "SCALR_FARM_NAME" with
  | some u_id, some u_environment_id, some u_account_id, some u_cloud_platform,
    some u_cloud_location, some u_farm_role_alias, some u_farm_role_id,
    some u_hostname, some u_public_ip, some u_private_ip, some u_instance_type,
    some u_farm =>
      some [("u_id", u_id),
            ("u_environment_id", u_environment_id),
            ("u_account_id", u_account_id),
            ("u_cloud_platform", u_cloud_platform),
            ("u_cloud_location", u_cloud_location),
            ("u_farm_role_alias", u_farm_role_alias),
            ("u_farm_role_id", u_farm_role_id),
            ("u_hostname", u_hostname),
            ("u_public_ip", u_public_ip),
            ("u_private_ip", u_private_ip),
            ("u_instance_type", u_instance_type),
            ("u_farm", u_farm)]
  | _, _, _, _, _, _, _, _, _, _, _, _ => none

/-- The request body built by `snow_create_server` (lines 123–127):
`body = server_object(...)` then `body['u_status'] = status`
(unconditionally; `u_status` is a fresh key, so it is appended). -/
def snow_create_server_body (data : Data) (farm_sys_id status : String) :
    Option (List (String × String)) :=
  match server_object data farm_sys_id with
  | none => none
  | some body => some (body ++ [("u_status", status)])

/-- The request body built by `snow_update_server` (lines 131–138):
`body = server_object(...)`, then `del body['u_id']`, then
`if status: body['u_status'] = status` (Python string truthiness:
non-empty). -/
def snow_update_server_body (data : Data) (farm_sys_id status : String) :
    Option (List (String × String)) :=
  match server_object data farm_sys_id with
  | none => none
  | some body =>
    some (if status ≠ "" then
            body.filter (fun p => p.1 != "u_id") ++ [("u_status", status)]
          else body.filter (fun p => p.1 != "u_id"))

/-- `snow_get_server_by_id` (lines 113–120) applied to the store's reply:
`None` for an empty result list, otherwise `response[0]` (with only a
logged warning when there is more than one match). -/
def snow_get_server_by_id (storeResponse : List Data) : Option Data :=
  storeResponse.head?

/-- `update_server` (lines 65–80) as a trace: given the payload `data`,
the `farm_sys_id` argument, the event name and the store's reply to the
lookup, returns the list of REST calls performed (in order) and
`some ()` on normal completion, `none` when a `KeyError` escaped (the
calls already issued before the exception are still in the trace). -/
def update_server (data : Data) (farm_sys_id event : String)
    (storeResponse : List Data) : List StoreOp × Option Unit :=
  match dictGet data "SCALR_SERVER_ID" with
  | none => ([], none)
  | some server_id =>
    match effective_status data event with
    | none => ([], none)
    | some status =>
      match snow_get_server_by_id storeResponse with
      | none =>
        match snow_create_server_body data farm_sys_id status with
        | none => ([StoreOp.lookup server_id], none)
        | some body =>
            ([StoreOp.lookup server_id, StoreOp.create body], some ())
      | some server =>
        match snow_update_server_body data farm_sys_id status with
        | none => ([StoreOp.lookup server_id], none)
        | some body =>
          match dictGet server "sys_id" with
          | none => ([StoreOp.lookup server_id], none)
          | some sys_id =>
              ([StoreOp.lookup server_id, StoreOp.update sys_id body], some ())

/-- `update_host` (lines 57–62): extracts `farm_sys_id = data['SCALR_FARM_ID']`,
runs `update_server`, and returns `'Ok'`. -/
def update_host (data : Data) (event : String) (storeResponse : List Data) :
    List StoreOp × Option String :=
  match dictGet data "SCALR_FARM_ID" with
  | none => ([], none)
  | some farm_sys_id =>
    match update_server data farm_sys_id event storeResponse with
    | (ops, none) => (ops, none)
    | (ops, some _) => (ops, some "Ok")

/-- The top-level JSON object of the request body, restricted to the two
keys the handler inspects; a `none` field models the key being absent. -/
structure ParsedBody where
  eventName : Option String
  data : Option Data

/-- The whitelist of lines 49–50 of `webhook_listener`. -/
def recognized_events : List String :=
  ["BeforeInstanceLaunch", "HostInit", "BeforeHostUp", "HostUp",
   "BeforeHostTerminate", "HostDown", "IPAddressChanged", "ResumeComplete",
   "HostInitFailed", "ServiceNowEvent"]

/-- The handler's outcome as seen by the HTTP client: `aborted c` for
`abort(c)`, `ok s` for a normal 200 response with body `s`, `exn` for an
uncaught Python exception escaping the handler. -/
inductive Outcome where
  | aborted (code : Nat)
  | ok (body : String)
  | exn
deriving DecidableEq

/-- `webhook_listener` (lines 38–54): `valid` is the result of
`validate_request` on the request, `body` the parsed JSON body, and
`storeResponse` the store's reply to the lookup `update_host` would
issue.  Returns the HTTP outcome together with the store calls made. -/
def webhook_listener (valid : Bool) (body : ParsedBody)
    (storeResponse : List Data) : Outcome × List StoreOp :=
  if valid then
    match body.eventName, body.data with
    | some event, some d =>
      if event ∈ recognized_events then
        match update_host d event storeResponse with
        | (ops, some resp) => (Outcome.ok resp, ops)
        | (ops, none) => (Outcome.exn, ops)
      else (Outcome.ok "", [])
    | _, _ => (Outcome.aborted 404, [])
  else (Outcome.aborted 403, [])

/-- Byte strings (request body, header values, digests) for the
authentication check. -/
abbrev Bytes := List Nat

/-- `validate_request` (lines 143–156).  `hmacSha1Hex key msg` is the
lowercase-hex HMAC-SHA1 digest primitive from the standard library
(`binascii.hexlify(hmac.new(key, msg, sha1).digest())`); `parseDate` is
`dateutil.parser.parse` reduced to a timestamp in seconds, `none` when
the string is unparseable (in which case Python raises, after the
signature already matched: result `none`).  `now` is
`datetime.now(pytz.utc)` in seconds.  The signature is computed over
`body + date` — body bytes first, then the raw date header. -/
def validate_request (hmacSha1Hex : Bytes → Bytes → Bytes)
    (parseDate : Bytes → Option ℚ) (signingKey : Bytes)
    (xSignature dateHeader : Option Bytes) (body : Bytes) (now : ℚ) :
    Option Bool :=
  match xSignature, dateHeader with
  | some sig, some date =>
    if hmacSha1Hex signingKey (body ++ date) ≠ sig then some false
    else
      match parseDate date with
      | none => none
      | some ts => some (decide (|now - ts| < 300))
  | _, _ => some false

/-! ## Helper lemmas and sample inputs -/

/-- A fully-populated notification payload, used to instantiate theorems
with hypotheses at a concrete input. -/
def sample_data : Data :=
  [("SCALR_SERVER_ID", "srv-1"), ("SCALR_ENV_ID", "env-1"),
   ("SCALR_ACCOUNT_ID", "acc-1"), ("SCALR_CLOUD_PLATFORM", "ec2"),
   ("SCALR_CLOUD_LOCATION", "us-east-1"), ("SCALR_FARM_ROLE_ALIAS", "app"),
   ("SCALR_FARM_ROLE_ID", "42"), ("SCALR_SERVER_HOSTNAME", "host-1"),
   ("SCALR_EXTERNAL_IP", "1.2.3.4"), ("SCALR_INTERNAL_IP", "10.0.0.1"),
   ("SCALR_SERVER_TYPE", "t2.micro"), ("SCALR_FARM_NAME", "farm-1"),
   ("SCALR_FARM_ID", "farm-sys-1"), ("SCALR_IS_SUSPEND", "0")]

/-- Inversion for `server_object`: a successful projection is exactly the
twelve-field record, each value read from the corresponding payload key. -/
theorem server_object_eq (d : Data) (f : String) (b : List (String × String))
    (h : server_object d f = some b) :
    ∃ v1 v2 v3 v4 v5 v6 v7 v8 v9 v10 v11 v12,
      dictGet d "SCALR_SERVER_ID" = some v1 ∧
      dictGet d "SCALR_ENV_ID" = some v2 ∧
      dictGet d "SCALR_ACCOUNT_ID" = some v3 ∧
      dictGet d "SCALR_CLOUD_PLATFORM" = some v4 ∧
      dictGet d "SCALR_CLOUD_LOCATION" = some v5 ∧
      dictGet d "SCALR_FARM_ROLE_ALIAS" = some v6 ∧
      dictGet d "SCALR_FARM_ROLE_ID" = some v7 ∧
      dictGet d "SCALR_SERVER_HOSTNAME" = some v8 ∧
      dictGet d "SCALR_EXTERNAL_IP" = some v9 ∧
      dictGet d "SCALR_INTERNAL_IP" = some v10 ∧
      dictGet d "SCALR_SERVER_TYPE" = some v11 ∧
      dictGet d "SCALR_FARM_NAME" = some v12 ∧
      b = [("u_id", v1), ("u_environment_id", v2), ("u_account_id", v3),
           ("u_cloud_platform", v4), ("u_cloud_location", v5),
           ("u_farm_role_alias", v6), ("u_farm_role_id", v7),
           ("u_hostname", v8), ("u_public_ip", v9), ("u_private_ip", v10),
           ("u_instance_type", v11), ("u_farm", v12)] := by
  unfold server_object at h
  split at h
  case _ v1 v2 v3 v4 v5 v6 v7 v8 v9 v10 v11 v12
      h1 h2 h3 h4 h5 h6 h7 h8 h9 h10 h11 h12 =>
    exact ⟨v1, v2, v3, v4, v5, v6, v7, v8, v9, v10, v11, v12,
      h1, h2, h3, h4, h5, h6, h7, h8, h9, h10, h11, h12,
      (Option.some.inj h).symm⟩
  case _ => exact absurd h (by simp)

/-- Every pair of a successful update body has a key other than `u_id`. -/
theorem update_body_no_uid (d : Data) (f st : String)
    (b : List (String × String)) (h : snow_update_server_body d f st = some b) :
    ∀ p ∈ b, p.1 ≠ "u_id" := by
  unfold snow_update_server_body at h
  cases hso : server_object d f with
  | none => rw [hso] at h; exact absurd h (by simp)
  | some so =>
    rw [hso] at h
    have hb := Option.some.inj h
    intro p hp
    rw [← hb] at hp
    by_cases hst : st ≠ ""
    · rw [if_pos hst] at hp
      rcases List.mem_append.mp hp with hp | hp
      · simpa using (List.of_mem_filter hp)
      · rcases List.mem_singleton.mp hp with rfl
        simp
    · rw [if_neg hst] at hp
      simpa using (List.of_mem_filter hp)

/-- A successful create body contains `u_id`, set to the payload's
`SCALR_SERVER_ID`. -/
theorem create_body_has_uid (d : Data) (f st : String)
    (b : List (String × String)) (h : snow_create_server_body d f st = some b) :
    ∃ uid, dictGet d "SCALR_SERVER_ID" = some uid ∧ ("u_id", uid) ∈ b := by
  unfold snow_create_server_body at h
  cases hso : server_object d f with
  | none => rw [hso] at h; exact absurd h (by simp)
  | some so =>
    rw [hso] at h
    obtain ⟨v1, v2, v3, v4, v5, v6, v7, v8, v9, v10, v11, v12, h1, -, -, -, -,
      -, -, -, -, -, -, -, hb⟩ := server_object_eq d f so hso
    refine ⟨v1, h1, ?_⟩
    rw [← Option.some.inj h, hb]
    simp

/-! ## Claims -/

/-- Claim C5: for every event name in the classifier table,
`status_from_event` returns exactly the mapped canonical status. -/
theorem table_classification :
    status_from_event "BeforeInstanceLaunch" = "provisioning" ∧
    status_from_event "HostInit" = "initializing" ∧
    status_from_event "BeforeHostUp" = "configuring" ∧
    status_from_event "HostUp" = "running" ∧
    status_from_event "BeforeHostTerminate" = "deprovisioning" ∧
    status_from_event "HostDown" = "terminated" ∧
    status_from_event "ResumeComplete" = "running" ∧
    status_from_event "HostInitFailed" = "failed" ∧
    status_from_event "ServiceNowEvent" = "running" := by
  decide

/-- Claim C4, counterexample: on a `HostDown` event whose payload lacks
`SCALR_IS_SUSPEND`, classification does not yield `terminated`: the
lookup `data['SCALR_IS_SUSPEND']` raises `KeyError` (result `none`), so
the claim that "classification does not fail when the flag is absent" is
false on the code. -/
theorem hostdown_flag_absent_raises :
    effective_status [("SCALR_SERVER_ID", "srv-1")] "HostDown" = none ∧
    effective_status [("SCALR_SERVER_ID", "srv-1")] "HostDown" ≠ some "terminated" := by
  decide

/-- Claim C4, amended: for a `HostDown` event, if `SCALR_IS_SUSPEND` is
present with value `"1"` the status is `suspended`; present with any
other value (in particular `"0"`) it is `terminated`; when the flag is
absent, classification raises `KeyError` instead of producing a status. -/
theorem hostdown_suspend_override (data : Data) :
    (∀ s, dictGet data "SCALR_IS_SUSPEND" = some s →
      effective_status data "HostDown" =
        some (if s = "1" then "suspended" else "terminated")) ∧
    (dictGet data "SCALR_IS_SUSPEND" = none →
      effective_status data "HostDown" = none) := by
  constructor
  · intro s hs
    simp [effective_status, hs, status_from_event]
  · intro hs
    simp [effective_status, hs]

/-- Witness for the amended C4 at concrete inputs: flag `"0"` gives
`terminated`, flag `"1"` gives `suspended`, absent flag gives `none`. -/
theorem hostdown_suspend_override_witness :
    effective_status sample_data "HostDown" = some "terminated" ∧
    effective_status [("SCALR_IS_SUSPEND", "1")] "HostDown" = some "suspended" ∧
    effective_status [] "HostDown" = none := by
  refine ⟨?_, ?_, ?_⟩
  · have h := (hostdown_suspend_override sample_data).1 "0" (by decide)
    simpa using h
  · have h := (hostdown_suspend_override [("SCALR_IS_SUSPEND", "1")]).1 "1" (by decide)
    simpa using h
  · exact (hostdown_suspend_override []).2 (by decide)

/-- Claim C2: every update issued by the reconciler carries a payload with
no `u_id` field, and every create it issues carries a payload containing
`u_id` set to the notification's `SCALR_SERVER_ID`. -/
theorem reconciler_uid_policy (d : Data) (f event : String)
    (resp : List Data) (ops : List StoreOp) (c : Option Unit)
    (h : update_server d f event resp = (ops, c)) :
    (∀ sys b, StoreOp.update sys b ∈ ops → ∀ p ∈ b, p.1 ≠ "u_id") ∧
    (∀ b, StoreOp.create b ∈ ops →
      ∃ uid, dictGet d "SCALR_SERVER_ID" = some uid ∧ ("u_id", uid) ∈ b) := by
  unfold update_server at h
  split at h
  · injection h with h1 h2; subst h1; exact ⟨by simp, by simp⟩
  next sid hsid =>
    split at h
    · injection h with h1 h2; subst h1; exact ⟨by simp, by simp⟩
    next st hst =>
      split at h
      · split at h
        · injection h with h1 h2; subst h1; exact ⟨by simp, by simp⟩
        next cb hcb =>
          injection h with h1 h2; subst h1
          constructor
          · intro sys b hb; simp at hb
          · intro b hb
            simp at hb
            subst hb
            exact create_body_has_uid d f st _ hcb
      next server hserver =>
        split at h
        · injection h with h1 h2; subst h1; exact ⟨by simp, by simp⟩
        next ub hub =>
          split at h
          · injection h with h1 h2; subst h1; exact ⟨by simp, by simp⟩
          next sys2 hsys2 =>
            injection h with h1 h2; subst h1
            constructor
            · intro sys b hb
              simp at hb
              obtain ⟨-, rfl⟩ := hb
              exact update_body_no_uid d f st _ hub
            · intro b hb; simp at hb

/-- Witness for C2 at a concrete input: a create against an empty lookup
result, and an update against a one-record lookup result. -/
theorem reconciler_uid_policy_witness :
    (∀ b, StoreOp.create b ∈
        (update_server sample_data "farm-sys-1" "HostUp" []).1 →
      ∃ uid, dictGet sample_data "SCALR_SERVER_ID" = some uid ∧
        ("u_id", uid) ∈ b) ∧
    (∀ sys b, StoreOp.update sys b ∈
        (update_server sample_data "farm-sys-1" "HostUp" [[("sys_id", "abc")]]).1 →
      ∀ p ∈ b, p.1 ≠ "u_id") :=
  ⟨(reconciler_uid_policy sample_data "farm-sys-1" "HostUp" []
      (update_server sample_data "farm-sys-1" "HostUp" []).1
      (update_server sample_data "farm-sys-1" "HostUp" []).2 rfl).2,
   (reconciler_uid_policy sample_data "farm-sys-1" "HostUp" [[("sys_id", "abc")]]
      (update_server sample_data "farm-sys-1" "HostUp" [[("sys_id", "abc")]]).1
      (update_server sample_data "farm-sys-1" "HostUp" [[("sys_id", "abc")]]).2 rfl).1⟩

/-- Claim C3: the create body always contains `u_status` set to the
classified status (including the empty "no mapping" default); the update
body contains `u_status` exactly when the status is not the default, and
with the default status it still carries all other descriptive fields,
read afresh from the notification. -/
theorem u_status_policy (d : Data) (f st : String) :
    (∀ b, snow_create_server_body d f st = some b → ("u_status", st) ∈ b) ∧
    (∀ b, snow_update_server_body d f st = some b →
      (st ≠ "" → ("u_status", st) ∈ b) ∧
      (st = "" → ∀ v, ("u_status", v) ∉ b)) ∧
    (∀ b, snow_update_server_body d f "" = some b →
      ∃ v2 v3 v4 v5 v6 v7 v8 v9 v10 v11 v12,
        dictGet d "SCALR_ENV_ID" = some v2 ∧
        dictGet d "SCALR_ACCOUNT_ID" = some v3 ∧
        dictGet d "SCALR_CLOUD_PLATFORM" = some v4 ∧
        dictGet d "SCALR_CLOUD_LOCATION" = some v5 ∧
        dictGet d "SCALR_FARM_ROLE_ALIAS" = some v6 ∧
        dictGet d "SCALR_FARM_ROLE_ID" = some v7 ∧
        dictGet d "SCALR_SERVER_HOSTNAME" = some v8 ∧
        dictGet d "SCALR_EXTERNAL_IP" = some v9 ∧
        dictGet d "SCALR_INTERNAL_IP" = some v10 ∧
        dictGet d "SCALR_SERVER_TYPE" = some v11 ∧
        dictGet d "SCALR_FARM_NAME" = some v12 ∧
        b = [("u_environment_id", v2), ("u_account_id", v3),
             ("u_cloud_platform", v4), ("u_cloud_location", v5),
             ("u_farm_role_alias", v6), ("u_farm_role_id", v7),
             ("u_hostname", v8), ("u_public_ip", v9), ("u_private_ip", v10),
             ("u_instance_type", v11), ("u_farm", v12)]) := by
  refine ⟨?_, ?_, ?_⟩
  · intro b h
    unfold snow_create_server_body at h
    cases hso : server_object d f with
    | none => rw [hso] at h; exact absurd h (by simp)
    | some so =>
      rw [hso] at h
      rw [← Option.some.inj h]
      simp
  · intro b h
    unfold snow_update_server_body at h
    cases hso : server_object d f with
    | none => rw [hso] at h; exact absurd h (by simp)
    | some so =>
      rw [hso] at h
      have hb := Option.some.inj h
      constructor
      · intro hst
        rw [← hb, if_pos hst]
        simp
      · intro hst v hv
        rw [← hb, if_neg (by simp [hst])] at hv
        obtain ⟨v1, v2, v3, v4, v5, v6, v7, v8, v9, v10, v11, v12, -, -, -, -,
          -, -, -, -, -, -, -, -, hsoeq⟩ := server_object_eq d f so hso
        subst hsoeq
        have := (List.mem_filter.mp hv).1
        simp at this
  · intro b h
    unfold snow_update_server_body at h
    cases hso : server_object d f with
    | none => rw [hso] at h; exact absurd h (by simp)
    | some so =>
      rw [hso] at h
      have hb := Option.some.inj h
      obtain ⟨v1, v2, v3, v4, v5, v6, v7, v8, v9, v10, v11, v12, -, h2, h3, h4,
        h5, h6, h7, h8, h9, h10, h11, h12, hsoeq⟩ := server_object_eq d f so hso
      subst hsoeq
      refine ⟨v2, v3, v4, v5, v6, v7, v8, v9, v10, v11, v12,
        h2, h3, h4, h5, h6, h7, h8, h9, h10, h11, h12, ?_⟩
      rw [← hb]
      simp [List.filter]

/-- Witness for C3 at a concrete input: the create body for the default
status carries `("u_status", "")`; the update body for status `"running"`
carries `("u_status", "running")`; the update body for the default status
is exactly the eleven descriptive fields of the sample payload. -/
theorem u_status_policy_witness :
    ("u_status", "") ∈
      [("u_id", "srv-1"), ("u_environment_id", "env-1"),
       ("u_account_id", "acc-1"), ("u_cloud_platform", "ec2"),
       ("u_cloud_location", "us-east-1"), ("u_farm_role_alias", "app"),
       ("u_farm_role_id", "42"), ("u_hostname", "host-1"),
       ("u_public_ip", "1.2.3.4"), ("u_private_ip", "10.0.0.1"),
       ("u_instance_type", "t2.micro"), ("u_farm", "farm-1"),
       ("u_status", "")] ∧
    (∀ v, ("u_status", v) ∉
      [("u_environment_id", "env-1"), ("u_account_id", "acc-1"),
       ("u_cloud_platform", "ec2"), ("u_cloud_location", "us-east-1"),
       ("u_farm_role_alias", "app"), ("u_farm_role_id", "42"),
       ("u_hostname", "host-1"), ("u_public_ip", "1.2.3.4"),
       ("u_private_ip", "10.0.0.1"), ("u_instance_type", "t2.micro"),
       ("u_farm", "farm-1")]) :=
  ⟨(u_status_policy sample_data "farm-sys-1" "").1 _ (by decide),
   ((u_status_policy sample_data "farm-sys-1" "").2.1 _ (by decide)).2 rfl⟩

/-- Claim C6: an authenticated, well-formed request whose event name is
outside the recognized set makes no store call and gets a 200 response
with empty body. -/
theorem unknown_event_no_interaction (body : ParsedBody) (e : String)
    (d : Data) (resp : List Data) (hev : body.eventName = some e)
    (hd : body.data = some d) (hu : e ∉ recognized_events) :
    webhook_listener true body resp = (Outcome.ok "", []) := by
  obtain ⟨ev, da⟩ := body
  simp only at hev hd
  subst hev
  subst hd
  simp [webhook_listener, hu]

/-- Witness for C6 at a concrete unrecognized event name. -/
theorem unknown_event_no_interaction_witness :
    webhook_listener true ⟨some "RebootComplete", some sample_data⟩ [] =
      (Outcome.ok "", []) :=
  unknown_event_no_interaction ⟨some "RebootComplete", some sample_data⟩
    "RebootComplete" sample_data [] rfl rfl (by decide)

/-- Claim C7: an authenticated request whose JSON body lacks `eventName`
or `data` is answered with 404 and makes no store call. -/
theorem missing_envelope_keys_404 (body : ParsedBody) (resp : List Data)
    (h : body.eventName = none ∨ body.data = none) :
    webhook_listener true body resp = (Outcome.aborted 404, []) := by
  obtain ⟨ev, da⟩ := body
  cases ev <;> cases da <;> simp_all [webhook_listener]

/-- Witness for C7 at a concrete body missing `eventName`. -/
theorem missing_envelope_keys_404_witness :
    webhook_listener true ⟨none, some sample_data⟩ [] =
      (Outcome.aborted 404, []) :=
  missing_envelope_keys_404 ⟨none, some sample_data⟩ [] (Or.inl rfl)

/-- Claim C8: when the lookup returns more than one record, the
reconciler takes the first record of the sequence, updates it addressed
by its `sys_id`, and completes normally — the only calls are the lookup
and that single update (no merge or delete of duplicates). -/
theorem ambiguous_lookup_uses_first (d : Data) (f event : String)
    (r : Data) (rs : List Data) (hmulti : rs ≠ []) (sid st sys : String)
    (b : List (String × String))
    (hsid : dictGet d "SCALR_SERVER_ID" = some sid)
    (hst : effective_status d event = some st)
    (hb : snow_update_server_body d f st = some b)
    (hsys : dictGet r "sys_id" = some sys) :
    snow_get_server_by_id (r :: rs) = some r ∧
    update_server d f event (r :: rs) =
      ([StoreOp.lookup sid, StoreOp.update sys b], some ()) := by
  constructor
  · rfl
  · simp [update_server, snow_get_server_by_id, hsid, hst, hb, hsys]

/-- Witness for C8 at a concrete two-record lookup result. -/
theorem ambiguous_lookup_uses_first_witness :
    update_server sample_data "farm-sys-1" "HostUp"
        [[("sys_id", "abc")], [("sys_id", "def")]] =
      ([StoreOp.lookup "srv-1",
        StoreOp.update "abc"
          [("u_environment_id", "env-1"), ("u_account_id", "acc-1"),
           ("u_cloud_platform", "ec2"), ("u_cloud_location", "us-east-1"),
           ("u_farm_role_alias", "app"), ("u_farm_role_id", "42"),
           ("u_hostname", "host-1"), ("u_public_ip", "1.2.3.4"),
           ("u_private_ip", "10.0.0.1"), ("u_instance_type", "t2.micro"),
           ("u_farm", "farm-1"), ("u_status", "running")]], some ()) :=
  (ambiguous_lookup_uses_first sample_data "farm-sys-1" "HostUp"
    [("sys_id", "abc")] [[("sys_id", "def")]] (by decide) "srv-1" "running"
    "abc" _ (by decide) (by decide) (by decide) (by decide)).2

/-- Claim C9: the record projection never reads `SCALR_FARM_ID`: two
payloads that agree on every other key (under arbitrary `farm_sys_id`
arguments) yield the same projection, the same classified status for any
event, and the same create and update bodies. -/
theorem farm_id_noninterference (d1 d2 : Data) (f1 f2 : String)
    (h : ∀ k, k ≠ "SCALR_FARM_ID" → dictGet d1 k = dictGet d2 k) :
    server_object d1 f1 = server_object d2 f2 ∧
    (∀ event, effective_status d1 event = effective_status d2 event) ∧
    (∀ st, snow_create_server_body d1 f1 st = snow_create_server_body d2 f2 st) ∧
    (∀ st, snow_update_server_body d1 f1 st = snow_update_server_body d2 f2 st) := by
  have hso : server_object d1 f1 = server_object d2 f2 := by
    unfold server_object
    rw [h "SCALR_SERVER_ID" (by decide), h "SCALR_ENV_ID" (by decide),
        h "SCALR_ACCOUNT_ID" (by decide), h "SCALR_CLOUD_PLATFORM" (by decide),
        h "SCALR_CLOUD_LOCATION" (by decide), h "SCALR_FARM_ROLE_ALIAS" (by decide),
        h "SCALR_FARM_ROLE_ID" (by decide), h "SCALR_SERVER_HOSTNAME" (by decide),
        h "SCALR_EXTERNAL_IP" (by decide), h "SCALR_INTERNAL_IP" (by decide),
        h "SCALR_SERVER_TYPE" (by decide), h "SCALR_FARM_NAME" (by decide)]
  refine ⟨hso, ?_, ?_, ?_⟩
  · intro event
    unfold effective_status
    by_cases hev : event = "HostDown"
    · rw [if_pos hev, if_pos hev, h "SCALR_IS_SUSPEND" (by decide)]
    · rw [if_neg hev, if_neg hev]
  · intro st
    unfold snow_create_server_body
    rw [hso]
  · intro st
    unfold snow_update_server_body
    rw [hso]

/-- Witness for C9: two concrete payloads whose `SCALR_FARM_ID` entries
differ (and different `farm_sys_id` arguments) produce the same
projection and the same update body. -/
theorem farm_id_noninterference_witness :
    server_object (("SCALR_FARM_ID", "X") :: sample_data) "X" =
      server_object (("SCALR_FARM_ID", "Y") :: sample_data) "Y" ∧
    snow_update_server_body (("SCALR_FARM_ID", "X") :: sample_data) "X" "running" =
      snow_update_server_body (("SCALR_FARM_ID", "Y") :: sample_data) "Y" "running" := by
  have h : ∀ k, k ≠ "SCALR_FARM_ID" →
      dictGet (("SCALR_FARM_ID", "X") :: sample_data) k =
      dictGet (("SCALR_FARM_ID", "Y") :: sample_data) k := by
    intro k hk
    have hb : ("SCALR_FARM_ID" == k) = false := beq_eq_false_iff_ne.mpr (Ne.symm hk)
    simp [dictGet, List.find?, hb]
  exact ⟨(farm_id_noninterference _ _ "X" "Y" h).1,
         (farm_id_noninterference _ _ "X" "Y" h).2.2.2 "running"⟩

/-- Claim C10: every event name outside the nine-entry classifier table —
including the recognized `IPAddressChanged` — gets the same empty-string
default from `status_from_event`, so the classifier output alone does not
separate an unrecognized event from the no-status-write event; the
no-store-interaction guarantee for unknown events comes only from the
handler whitelist (a recognized `IPAddressChanged` request does reach the
store). -/
theorem classifier_default_vs_whitelist :
    (∀ e, e ∉ table_events → status_from_event e = "") ∧
    "IPAddressChanged" ∉ table_events ∧
    "IPAddressChanged" ∈ recognized_events ∧
    (∀ body e d resp, body.eventName = some e → body.data = some d →
      e ∉ recognized_events →
      webhook_listener true body resp = (Outcome.ok "", [])) ∧
    (webhook_listener true ⟨some "IPAddressChanged", some sample_data⟩ []).2 ≠ [] := by
  refine ⟨?_, by decide, by decide, ?_, by decide⟩
  · intro e he
    simp [table_events] at he
    obtain ⟨h1, h2, h3, h4, h5, h6, h7, h8, h9⟩ := he
    simp [status_from_event, h1, h2, h3, h4, h5, h6, h7, h8, h9]
  · intro body e d resp hev hd hu
    obtain ⟨ev, da⟩ := body
    simp only at hev hd
    subst hev
    subst hd
    simp [webhook_listener, hu]

/-- Witness for C10 at a concrete unrecognized event name. -/
theorem classifier_default_vs_whitelist_witness :
    status_from_event "HostReboot" = "" ∧
    webhook_listener true ⟨some "HostReboot", some sample_data⟩ [] =
      (Outcome.ok "", []) :=
  ⟨classifier_default_vs_whitelist.1 "HostReboot" (by decide),
   classifier_default_vs_whitelist.2.2.2.1 _ "HostReboot" sample_data [] rfl rfl
     (by decide)⟩

/-- Claim C1: `validate_request` accepts exactly when both headers are
present, the signature header equals the hex HMAC-SHA1 digest of the raw
body concatenated with the raw date header (body first), and the parsed
date is strictly within 300 seconds of `now`; it returns `False` when a
header is missing, the signature differs, or the absolute difference is
≥ 300 seconds (so a far-future date also fails). -/
theorem validate_request_spec (hmacSha1Hex : Bytes → Bytes → Bytes)
    (parseDate : Bytes → Option ℚ) (key : Bytes)
    (xSig dateH : Option Bytes) (body : Bytes) (now : ℚ) :
    (validate_request hmacSha1Hex parseDate key xSig dateH body now = some true ↔
      ∃ sig date ts, xSig = some sig ∧ dateH = some date ∧
        sig = hmacSha1Hex key (body ++ date) ∧
        parseDate date = some ts ∧ |now - ts| < 300) ∧
    (xSig = none ∨ dateH = none →
      validate_request hmacSha1Hex parseDate key xSig dateH body now = some false) ∧
    (∀ sig date, xSig = some sig → dateH = some date →
      sig ≠ hmacSha1Hex key (body ++ date) →
      validate_request hmacSha1Hex parseDate key xSig dateH body now = some false) ∧
    (∀ sig date ts, xSig = some sig → dateH = some date →
      sig = hmacSha1Hex key (body ++ date) → parseDate date = some ts →
      300 ≤ |now - ts| →
      validate_request hmacSha1Hex parseDate key xSig dateH body now = some false) := by
  refine ⟨⟨?_, ?_⟩, ?_, ?_, ?_⟩
  · intro hv
    cases xSig with
    | none => simp [validate_request] at hv
    | some sig =>
      cases dateH with
      | none => simp [validate_request] at hv
      | some date =>
        unfold validate_request at hv
        dsimp only at hv
        by_cases hsig : hmacSha1Hex key (body ++ date) ≠ sig
        · rw [if_pos hsig] at hv
          simp at hv
        · rw [if_neg hsig] at hv
          push_neg at hsig
          cases hts : parseDate date with
          | none => rw [hts] at hv; simp at hv
          | some ts =>
            rw [hts] at hv
            exact ⟨sig, date, ts, rfl, rfl, hsig.symm, hts,
              of_decide_eq_true (Option.some.inj hv)⟩
  · rintro ⟨sig, date, ts, rfl, rfl, hsig, hts, hlt⟩
    unfold validate_request
    dsimp only
    rw [if_neg (not_not_intro hsig.symm), hts]
    simp [hlt]
  · intro hmiss
    rcases hmiss with rfl | rfl
    · simp [validate_request]
    · cases xSig <;> simp [validate_request]
  · rintro sig date rfl rfl hne
    unfold validate_request
    dsimp only
    rw [if_pos (Ne.symm hne)]
  · rintro sig date ts rfl rfl hsig hts hge
    unfold validate_request
    dsimp only
    rw [if_neg (not_not_intro hsig.symm), hts]
    simp [decide_eq_false_iff_not, not_lt, hge]

/-- Witness for C1 at a concrete instantiation of the digest and date
primitives: both headers present, signature equal to the digest of
body-then-date, and a fresh timestamp, so validation accepts. -/
theorem validate_request_spec_witness :
    validate_request (fun _ m => m) (fun _ => some 0) [] (some [7]) (some [7])
      [] 0 = some true :=
  (validate_request_spec (fun _ m => m) (fun _ => some 0) [] (some [7])
    (some [7]) [] 0).1.mpr
    ⟨[7], [7], 0, rfl, rfl, rfl, rfl, by norm_num⟩

end Webhook
